import Mathlib

/-!
Verification of the whale-alert ingestion core of the polymarket-insider
repository: the trade classifier (`tradeToWhaleAlert`), the process-wide
accumulator store (`whaleStore`), the refresh cycle (the query function of
`useWhaleActivity`), the pagination cycle (`loadMore`), and the notification
logic of `App.tsx`.

Numeric fields of upstream trades (`size`, `price`, `timestamp`) are
JavaScript numbers; they are embedded as `Rat`. Strings stay `String`;
optional fields become `Option`. JavaScript truthiness on optional strings
(where `undefined`, `null` and `""` are all falsy, as used by the `||`
operator in the source) is modelled explicitly by `truthyStr`.
-/

namespace PolymarketInsider

/-- Trade side, the `side: z.enum(['BUY', 'SELL'])` field of `TradeSchema`. -/
inductive Side where
  | BUY
  | SELL
deriving DecidableEq, Repr

/-- A raw upstream trade, after `TradeSchema` validation (`lib/api.ts`).
Fields not read by the whale pipeline (`asset`, `slug`, `outcomeIndex`,
`profileImage`) are omitted; they never influence any observed value. -/
structure Trade where
  proxyWallet : String
  side : Side
  conditionId : String
  size : Rat
  price : Rat
  timestamp : Rat
  title : Option String
  outcome : Option String
  pseudonym : Option String
  name : Option String
  transactionHash : Option String
deriving DecidableEq, Repr

/-- The normalized alert record (`WhaleAlert` interface in
`useWhaleActivity.ts`). -/
structure WhaleAlert where
  id : String
  trader : String
  traderName : Option String
  side : Side
  size : Rat
  price : Rat
  value : Rat
  market : String
  outcome : String
  timestamp : Rat
  transactionHash : Option String
deriving DecidableEq, Repr

/-- JavaScript truthiness for an optional string: `undefined`, `null` and
`""` are falsy, so `a || b` falls through to `b` exactly when `a` is absent
or empty. -/
def truthyStr : Option String → Option String
  | some s => if s = "" then none else some s
  | none => none

/-- JavaScript `a || d` with a string default, as in
`trade.title || 'Unknown Market'`. -/
def jsOr (a : Option String) (d : String) : String :=
  (truthyStr a).getD d

/-- The synthesized dedup key used when no (truthy) transaction hash exists:
the template literal
`${trade.proxyWallet}-${trade.timestamp}-${trade.conditionId}-${trade.size}`. -/
def synthId (t : Trade) : String :=
  t.proxyWallet ++ "-" ++ toString t.timestamp ++ "-" ++ t.conditionId ++ "-" ++ toString t.size

/-- The trade classifier `tradeToWhaleAlert(trade, minValue)` of
`useWhaleActivity.ts` (lines 42-61): computes `value = size * price`,
returns `null` below the threshold, and otherwise builds the alert record.
The id is `trade.transactionHash || <synthesized key>` (JS truthiness). -/
def tradeToWhaleAlert (trade : Trade) (minValue : Rat) : Option WhaleAlert :=
  let value := trade.size * trade.price
  if value < minValue then none
  else
    some {
      id := (truthyStr trade.transactionHash).getD (synthId trade)
      trader := trade.proxyWallet
      traderName := (truthyStr trade.name).orElse (fun _ => truthyStr trade.pseudonym)
      side := trade.side
      size := trade.size
      price := trade.price
      value := value
      market := jsOr trade.title "Unknown Market"
      outcome := jsOr trade.outcome "Unknown"
      timestamp := trade.timestamp
      transactionHash := trade.transactionHash }

/-- The process-wide accumulator `whaleStore` of `useWhaleActivity.ts`
(lines 37-40): a `Map<string, WhaleAlert>` keyed by alert id plus the
`oldestOffset` cursor. The map is embedded as its insertion-ordered entry
list (JS `Map` preserves insertion order); keys are the `id` fields. -/
structure WhaleStore where
  alerts : List WhaleAlert
  oldestOffset : Nat
deriving DecidableEq, Repr

/-- The store at module load: empty map, `oldestOffset: 0`. -/
def initialWhaleStore : WhaleStore :=
  { alerts := [], oldestOffset := 0 }

/-- `whaleStore.alerts.has(id)`. -/
def hasAlertId (st : WhaleStore) (id : String) : Bool :=
  st.alerts.any (fun a => a.id == id)

/-- One merge step, as performed by both merge loops in the source:
`if (alert && !whaleStore.alerts.has(alert.id)) { alerts.set(alert.id, alert); count++ }`.
Returns the new store and whether the alert was newly inserted. -/
def mergeAlert (st : WhaleStore) (a : WhaleAlert) : WhaleStore × Bool :=
  if hasAlertId st a.id then (st, false)
  else ({ st with alerts := st.alerts ++ [a] }, true)

/-- The body of the merge loops in the source: classify one trade and, when
it is a whale not yet in the store, insert it and bump the counter. -/
def mergeStep (minValue : Rat) (acc : WhaleStore × Nat) (trade : Trade) : WhaleStore × Nat :=
  match tradeToWhaleAlert trade minValue with
  | none => acc
  | some alert =>
    let r := mergeAlert acc.1 alert
    (r.1, if r.2 then acc.2 + 1 else acc.2)

/-- The classify-and-merge loop over a fetched page, counting first-time
insertions (`newCount` in the query function, `foundCount` in `loadMore`). -/
def mergeTrades (st : WhaleStore) (minValue : Rat) (trades : List Trade) : WhaleStore × Nat :=
  trades.foldl (mergeStep minValue) (st, 0)

/-- The snapshot the query function returns:
`Array.from(whaleStore.alerts.values()).sort((a, b) => b.timestamp - a.timestamp)`,
i.e. the store's alerts sorted by timestamp descending (JS `sort` is stable,
matching `mergeSort`). -/
def snapshot (st : WhaleStore) : List WhaleAlert :=
  st.alerts.mergeSort (fun a b => decide (b.timestamp ≤ a.timestamp))

/-- The data object the query function resolves with (the wall-clock
`updatedAt` field is dropped: no claim mentions it). -/
structure RefreshData where
  alerts : List WhaleAlert
  newCount : Nat
deriving DecidableEq, Repr

/-- One refresh cycle (the `queryFn` of `useWhaleActivity`, lines 77-104)
applied to the page fetched at offset 0: merge each trade into the store,
then return the sorted snapshot and the count of newly merged alerts. -/
def runRefresh (st : WhaleStore) (minValue : Rat) (page : List Trade) :
    WhaleStore × RefreshData :=
  let r := mergeTrades st minValue page
  (r.1, { alerts := snapshot r.1, newCount := r.2 })

/-- Outcome of `fetchRecentTrades`: a page of trades, or a transport/schema
error (rejected promise). -/
inductive FetchResult where
  | ok : List Trade → FetchResult
  | err : FetchResult
deriving DecidableEq, Repr

/-- Result of one `loadMore` call: the store afterwards, the returned
`foundCount`, and whether a network fetch was actually issued. -/
structure LoadMoreResult where
  store : WhaleStore
  foundCount : Nat
  fetched : Bool
deriving DecidableEq, Repr

/-- The pagination cycle `loadMore` of `useWhaleActivity.ts` (lines 130-161).
`isLoadingMore` is the in-flight guard: when set, the call returns 0 at once
and no fetch happens. Otherwise it fetches at `oldestOffset + 500`; on a
non-empty page it merges every trade and advances the cursor to that offset;
on an empty page it changes nothing; a fetch error is caught and logged,
leaving the store untouched and returning 0. The fetch is modelled as a
function from the requested offset to its outcome. -/
def loadMore (isLoadingMore : Bool) (st : WhaleStore) (minValue : Rat)
    (fetch : Nat → FetchResult) : LoadMoreResult :=
  if isLoadingMore then { store := st, foundCount := 0, fetched := false }
  else
    let newOffset := st.oldestOffset + 500
    match fetch newOffset with
    | .err => { store := st, foundCount := 0, fetched := true }
    | .ok trades =>
      if trades.length > 0 then
        let r := mergeTrades st minValue trades
        { store := { r.1 with oldestOffset := newOffset }, foundCount := r.2, fetched := true }
      else { store := st, foundCount := 0, fetched := true }

/-- How the promise returned by the hook's manual-refresh entry point
settles: it either resolves with a count of new trades, or rejects. -/
inductive RefetchOutcome where
  | resolved : Nat → RefetchOutcome
  | rejected : RefetchOutcome
deriving DecidableEq, Repr

/-- The hook's manual-refresh entry point (`refetch`, lines 118-127):
`const result = await query.refetch(); return result.data?.newCount ?? 0`.
TanStack Query's `query.refetch()` resolves with a result object even when
the underlying fetch fails (no `throwOnError` is passed): the error is put
in `result.error` and `result.data` keeps the previous successful data, if
any. The model takes whether the fetch fails, the previously cached data,
and the data a successful fetch would produce. -/
def hookRefetch (fetchFails : Bool) (prevData : Option RefreshData)
    (freshData : RefreshData) : RefetchOutcome :=
  if fetchFails then .resolved ((prevData.map RefreshData.newCount).getD 0)
  else .resolved freshData.newCount

/-- Toast kinds in `App.tsx`. -/
inductive ToastType where
  | success
  | info
  | warning
deriving DecidableEq, Repr

/-- A toast notification as shown by `showToast(message, type)`. -/
structure Toast where
  message : String
  type : ToastType
deriving DecidableEq, Repr

/-- `handleAutoRefresh` in `App.tsx` (lines 166-171): a toast only when
`newCount > 0`; a silent auto-refresh otherwise. -/
def handleAutoRefresh (newCount : Nat) : List Toast :=
  if newCount > 0 then
    [{ message := toString newCount ++ " new whale" ++ (if newCount > 1 then "s" else "") ++ " detected!"
       type := .success }]
  else []

/-- `handleRefresh` in `App.tsx` (lines 191-205): on a resolved count, a
success toast when positive and the neutral info toast otherwise; the catch
branch shows the warning toast when the refetch promise rejects. -/
def handleRefresh (r : RefetchOutcome) : List Toast :=
  match r with
  | .resolved n =>
    if n > 0 then
      [{ message := "Found " ++ toString n ++ " new whale trade" ++ (if n > 1 then "s" else "") ++ "!"
         type := .success }]
    else [{ message := "No new trades yet", type := .info }]
  | .rejected => [{ message := "Failed to refresh", type := .warning }]

/-- What started a refresh cycle: the 30 s timer, window focus, or the
user's explicit "Check Now" button. -/
inductive Trigger where
  | timer
  | focus
  | manual
deriving DecidableEq, Repr

/-- Notifications produced when a refresh cycle completes with `newCount`.
The hook sets `isManualRefresh` around a manual refresh, so the
`onAutoRefresh` effect (lines 111-115) fires only for timer/focus cycles,
where it calls `handleAutoRefresh`; only the manual path runs App's
`handleRefresh` toast logic on the resolved count. -/
def refreshNotifications (trigger : Trigger) (newCount : Nat) : List Toast :=
  match trigger with
  | .timer => handleAutoRefresh newCount
  | .focus => handleAutoRefresh newCount
  | .manual => handleRefresh (.resolved newCount)

/-- A placeholder alert, used only as the `Option.getD` default when reading
a classifier result already known to be `some`. -/
def defaultAlert : WhaleAlert :=
  { id := "", trader := "", traderName := none, side := .BUY, size := 0, price := 0,
    value := 0, market := "", outcome := "", timestamp := 0, transactionHash := none }

/-- Concrete trade from the spec scenario: size 2000, price 0.6, value 1200. -/
def exTradeBig : Trade :=
  { proxyWallet := "0xaaa", side := .BUY, conditionId := "cond1", size := 2000,
    price := 0.6, timestamp := 1700000100, title := some "Some market",
    outcome := some "Yes", pseudonym := none, name := some "whale1",
    transactionHash := some "0xtx1" }

/-- Concrete trade from the spec scenario: size 100, price 5, value 500. -/
def exTradeSmall : Trade :=
  { proxyWallet := "0xbbb", side := .SELL, conditionId := "cond1", size := 100,
    price := 5, timestamp := 1700000101, title := some "Some market",
    outcome := some "No", pseudonym := none, name := none,
    transactionHash := some "0xtx2" }

/-- Concrete alert used in store examples. -/
def exAlert1 : WhaleAlert :=
  { id := "0xtx1", trader := "0xaaa", traderName := some "whale1", side := .BUY,
    size := 2000, price := 0.6, value := 1200, market := "Some market",
    outcome := "Yes", timestamp := 1700000100, transactionHash := some "0xtx1" }

/-- Concrete store already holding `exAlert1`. -/
def exStore1 : WhaleStore :=
  { alerts := [exAlert1], oldestOffset := 0 }

/-- A trade whose upstream `transactionHash` field is present but is the
empty string, which JavaScript `||` treats as falsy. -/
def emptyHashTrade : Trade :=
  { proxyWallet := "0xabc", side := .SELL, conditionId := "cond2", size := 2,
    price := 600, timestamp := 1700000000, title := none, outcome := none,
    pseudonym := none, name := none, transactionHash := some "" }

/-- A trade carrying a non-empty transaction hash. -/
def hashTrade : Trade :=
  { proxyWallet := "0xfff", side := .BUY, conditionId := "cond3", size := 10,
    price := 200, timestamp := 1700000200, title := some "m", outcome := some "No",
    pseudonym := none, name := none, transactionHash := some "0xtx9" }

/-- A below-threshold trade (value 500 at threshold 1000). -/
def smallTrade : Trade :=
  { proxyWallet := "0x111", side := .BUY, conditionId := "cond4", size := 100,
    price := 5, timestamp := 1700000300, title := none, outcome := none,
    pseudonym := none, name := none, transactionHash := some "0xtx5" }

/-- A fetch whose every page consists of the single below-threshold trade. -/
def pageBelowThreshold : Nat → FetchResult :=
  fun _ => .ok [smallTrade]

/-! Helper lemmas. -/

/-- Merging a single alert never touches the offset cursor. -/
theorem mergeAlert_oldestOffset (st : WhaleStore) (a : WhaleAlert) :
    (mergeAlert st a).1.oldestOffset = st.oldestOffset := by
  unfold mergeAlert
  split <;> rfl

/-- One merge-loop step never touches the offset cursor. -/
theorem mergeStep_oldestOffset (minValue : Rat) (acc : WhaleStore × Nat) (t : Trade) :
    (mergeStep minValue acc t).1.oldestOffset = acc.1.oldestOffset := by
  unfold mergeStep
  cases tradeToWhaleAlert t minValue with
  | none => rfl
  | some alert => simpa using mergeAlert_oldestOffset acc.1 alert

/-- The whole merge loop never touches the offset cursor. -/
theorem foldl_mergeStep_oldestOffset (minValue : Rat) (trades : List Trade) :
    ∀ acc : WhaleStore × Nat,
      (trades.foldl (mergeStep minValue) acc).1.oldestOffset = acc.1.oldestOffset := by
  induction trades with
  | nil => intro acc; rfl
  | cons t ts ih =>
    intro acc
    rw [List.foldl_cons, ih, mergeStep_oldestOffset]

/-- `mergeTrades` never touches the offset cursor. -/
theorem mergeTrades_oldestOffset (st : WhaleStore) (minValue : Rat) (trades : List Trade) :
    (mergeTrades st minValue trades).1.oldestOffset = st.oldestOffset :=
  foldl_mergeStep_oldestOffset minValue trades (st, 0)

/-- A synthesized id is never the empty string: it contains the three `"-"`
separator characters. -/
theorem synthId_ne_empty (t : Trade) : synthId t ≠ "" := by
  intro h
  have hlen := congrArg String.length h
  unfold synthId at hlen
  simp only [String.length_append] at hlen
  have hdash : ("-" : String).length = 1 := rfl
  have hnil : ("" : String).length = 0 := rfl
  rw [hdash, hnil] at hlen
  omega

/-- The snapshot of any store is pairwise ordered by timestamp descending. -/
theorem pairwise_snapshot (st : WhaleStore) :
    (snapshot st).Pairwise (fun a b : WhaleAlert => b.timestamp ≤ a.timestamp) := by
  have h := @List.sorted_mergeSort WhaleAlert
    (fun a b : WhaleAlert => decide (b.timestamp ≤ a.timestamp))
    (fun a b c hab hbc => by
      simp only [decide_eq_true_eq] at hab hbc ⊢
      exact le_trans hbc hab)
    (fun a b => by
      simp only [Bool.or_eq_true, decide_eq_true_eq]
      exact le_total b.timestamp a.timestamp)
    st.alerts
  exact h.imp (fun hb => of_decide_eq_true hb)

/-! Claim theorems. -/

/-- C1: for every raw trade and every threshold `minValue`, the classifier
returns nothing exactly when `size * price < minValue`, and any alert it
returns has `value = size * price`. (`tradeToWhaleAlert` is a plain Lean
function, so purity holds by construction.) -/
theorem classify_spec (t : Trade) (m : Rat) :
    (tradeToWhaleAlert t m = none ↔ t.size * t.price < m) ∧
    (∀ a, tradeToWhaleAlert t m = some a → a.value = t.size * t.price) := by
  constructor
  · by_cases h : t.size * t.price < m <;> simp [tradeToWhaleAlert, h]
  · intro a ha
    by_cases h : t.size * t.price < m
    · simp [tradeToWhaleAlert, h] at ha
    · simp [tradeToWhaleAlert, h] at ha
      rw [← ha]

/-- Witness for `classify_spec` at the spec's scenario inputs: the
size-2000/price-0.6 trade is accepted with value 1200 = size * price, and
the size-100/price-5 trade is rejected at threshold 1000. -/
theorem classify_spec_witness :
    WhaleAlert.value ((tradeToWhaleAlert exTradeBig 1000).getD defaultAlert) =
      exTradeBig.size * exTradeBig.price ∧
    tradeToWhaleAlert exTradeSmall 1000 = none := by
  constructor
  · apply (classify_spec exTradeBig 1000).2
    cases ho : tradeToWhaleAlert exTradeBig 1000 with
    | none =>
      exact absurd ((classify_spec exTradeBig 1000).1.mp ho) (by norm_num [exTradeBig])
    | some a => rfl
  · exact (classify_spec exTradeSmall 1000).1.mpr (by norm_num [exTradeSmall])

/-- C2: merging an alert whose id is already a key leaves the store
unchanged and reports it as not new; merging the same id twice across two
operations grows the store by at most one; and every merge is append-only
(the old entry list survives unchanged as an initial segment). -/
theorem merge_append_only (st : WhaleStore) (a b : WhaleAlert) :
    (hasAlertId st a.id = true → mergeAlert st a = (st, false)) ∧
    (b.id = a.id →
      (mergeAlert (mergeAlert st a).1 b).1.alerts.length ≤ st.alerts.length + 1) ∧
    (∃ tail, (mergeAlert st a).1.alerts = st.alerts ++ tail) := by
  refine ⟨?_, ?_, ?_⟩
  · intro h
    simp [mergeAlert, h]
  · intro hid
    by_cases h : hasAlertId st a.id
    · have h2 : hasAlertId st b.id = true := by rw [hid]; exact h
      simp [mergeAlert, h, h2]
    · have h2 : hasAlertId { st with alerts := st.alerts ++ [a] } b.id = true := by
        simp [hasAlertId, hid]
      simp [mergeAlert, h, h2]
  · by_cases h : hasAlertId st a.id
    · exact ⟨[], by simp [mergeAlert, h]⟩
    · exact ⟨[a], by simp [mergeAlert, h]⟩

/-- Witness for `merge_append_only`: re-merging the alert already held by
`exStore1` is a no-op reported as not new, and two merges of the same id
grow the store by at most one. -/
theorem merge_append_only_witness :
    mergeAlert exStore1 exAlert1 = (exStore1, false) ∧
    (mergeAlert (mergeAlert exStore1 exAlert1).1 exAlert1).1.alerts.length ≤
      exStore1.alerts.length + 1 :=
  ⟨(merge_append_only exStore1 exAlert1 exAlert1).1 (by decide),
   (merge_append_only exStore1 exAlert1 exAlert1).2.1 rfl⟩

/-- C3: the alert sequence returned by a refresh cycle is sorted by
timestamp descending: whenever alert A appears before alert B, A's
timestamp is at least B's. -/
theorem refresh_snapshot_sorted (st : WhaleStore) (minValue : Rat) (page : List Trade) :
    ((runRefresh st minValue page).2.alerts).Pairwise
      (fun a b : WhaleAlert => b.timestamp ≤ a.timestamp) :=
  pairwise_snapshot (mergeTrades st minValue page).1

/-- C4 (code bug): a refresh cycle whose fetch fails is NOT reported as an
error to the manual-refresh caller. `query.refetch()` resolves even on a
failed fetch, so `refetch` resolves with `result.data?.newCount ?? 0`; with
no cached data the caller receives 0 — indistinguishable from a successful
cycle with no new trades — and `handleRefresh` shows the neutral info toast
instead of the "Failed to refresh" warning, whose catch branch is
unreachable. -/
theorem refetch_error_not_propagated :
    hookRefetch true none { alerts := [], newCount := 0 } = .resolved 0 ∧
    hookRefetch true none { alerts := [], newCount := 0 } ≠ .rejected ∧
    handleRefresh (hookRefetch true none { alerts := [], newCount := 0 }) =
      [{ message := "No new trades yet", type := ToastType.info }] ∧
    hookRefetch true (some { alerts := [], newCount := 7 }) { alerts := [], newCount := 0 } =
      .resolved 7 := by
  refine ⟨rfl, by decide, rfl, rfl⟩

/-- C5: a `loadMore` call made while the in-flight guard is set returns 0,
performs no network fetch, and leaves the store untouched — so at most one
pagination fetch is in flight at a time. -/
theorem loadMore_single_flight (st : WhaleStore) (minValue : Rat) (fetch : Nat → FetchResult) :
    loadMore true st minValue fetch = { store := st, foundCount := 0, fetched := false } :=
  rfl

/-- C6: when the fetch at `oldestOffset + 500` returns an empty page,
`loadMore` returns `foundCount = 0`, does not advance the cursor, and
leaves the alert store unchanged. -/
theorem loadMore_empty_page (st : WhaleStore) (minValue : Rat) (fetch : Nat → FetchResult)
    (h : fetch (st.oldestOffset + 500) = .ok []) :
    loadMore false st minValue fetch = { store := st, foundCount := 0, fetched := true } := by
  simp [loadMore, h]

/-- Witness for `loadMore_empty_page`: an always-empty upstream at the
initial store. -/
theorem loadMore_empty_page_witness :
    loadMore false initialWhaleStore 1000 (fun _ => FetchResult.ok []) =
      { store := initialWhaleStore, foundCount := 0, fetched := true } :=
  loadMore_empty_page initialWhaleStore 1000 (fun _ => FetchResult.ok []) rfl

/-- C7: the `oldestOffset` cursor starts at 0 and is monotonically
non-decreasing: single merges and the refresh cycle never write it, and a
pagination cycle either leaves it unchanged or sets it to the strictly
larger value `oldestOffset + 500`. -/
theorem oldestOffset_monotone :
    initialWhaleStore.oldestOffset = 0 ∧
    (∀ st a, (mergeAlert st a).1.oldestOffset = st.oldestOffset) ∧
    (∀ st minValue page, (runRefresh st minValue page).1.oldestOffset = st.oldestOffset) ∧
    (∀ fl st minValue fetch,
      st.oldestOffset ≤ (loadMore fl st minValue fetch).store.oldestOffset ∧
      ((loadMore fl st minValue fetch).store.oldestOffset = st.oldestOffset ∨
       (loadMore fl st minValue fetch).store.oldestOffset = st.oldestOffset + 500)) := by
  refine ⟨rfl, mergeAlert_oldestOffset, ?_, ?_⟩
  · intro st minValue page
    exact mergeTrades_oldestOffset st minValue page
  · intro fl st minValue fetch
    cases fl with
    | true => exact ⟨le_refl _, Or.inl rfl⟩
    | false =>
      cases hf : fetch (st.oldestOffset + 500) with
      | err => simp [loadMore, hf]
      | ok trades =>
        by_cases hl : trades.length > 0
        · simp [loadMore, hf, hl, mergeTrades_oldestOffset]
        · simp [loadMore, hf, hl]

/-- C8: a completed refresh cycle with `newCount = 0` produces zero
notifications when triggered by the timer or window focus, and exactly the
one neutral "No new trades yet" notification when triggered manually — the
trigger paths are distinguished. -/
theorem refresh_zero_notifications :
    refreshNotifications .timer 0 = [] ∧
    refreshNotifications .focus 0 = [] ∧
    refreshNotifications .manual 0 =
      [{ message := "No new trades yet", type := ToastType.info }] := by
  refine ⟨rfl, rfl, rfl⟩

/-- C9 counterexample: `emptyHashTrade` carries a present-but-empty upstream
transaction identifier; the classifier accepts it, yet the alert id is not
that identifier (JavaScript `||` treats `""` as falsy and synthesizes). -/
theorem alert_id_counterexample :
    emptyHashTrade.transactionHash = some "" ∧
    (tradeToWhaleAlert emptyHashTrade 1000).isSome = true ∧
    (tradeToWhaleAlert emptyHashTrade 1000).map WhaleAlert.id ≠ some "" := by
  have hval : ¬ (emptyHashTrade.size * emptyHashTrade.price < 1000) := by
    norm_num [emptyHashTrade]
  refine ⟨rfl, ?_, ?_⟩
  · simp [tradeToWhaleAlert, hval]
  · simp [tradeToWhaleAlert, hval, truthyStr]
    exact synthId_ne_empty emptyHashTrade

/-- C9 amended: the alert id equals the upstream transaction identifier when
one is present and non-empty; when it is absent or empty, the id is
synthesized exactly from actor address, timestamp, market identifier and
size (price and side do not occur in `synthId`). -/
theorem alert_id_spec (t : Trade) (m : Rat) (a : WhaleAlert)
    (h : tradeToWhaleAlert t m = some a) :
    (∀ hash, t.transactionHash = some hash → hash ≠ "" → a.id = hash) ∧
    ((t.transactionHash = none ∨ t.transactionHash = some "") → a.id = synthId t) := by
  have hid : a.id = (truthyStr t.transactionHash).getD (synthId t) := by
    by_cases hv : t.size * t.price < m
    · simp [tradeToWhaleAlert, hv] at h
    · simp [tradeToWhaleAlert, hv] at h
      rw [← h]
  constructor
  · intro hash hh hne
    rw [hid, hh]
    simp [truthyStr, hne]
  · intro hcase
    rcases hcase with hnone | hempty
    · rw [hid, hnone]
      rfl
    · rw [hid, hempty]
      simp [truthyStr]

/-- Witness for `alert_id_spec`: the alert built from `hashTrade` keeps its
non-empty transaction hash as its id. -/
theorem alert_id_spec_witness :
    WhaleAlert.id ((tradeToWhaleAlert hashTrade 1000).getD defaultAlert) = "0xtx9" := by
  have ho : tradeToWhaleAlert hashTrade 1000 =
      some ((tradeToWhaleAlert hashTrade 1000).getD defaultAlert) := by
    have hval : ¬ (hashTrade.size * hashTrade.price < 1000) := by
      norm_num [hashTrade]
    cases ho : tradeToWhaleAlert hashTrade 1000 with
    | none => simp [tradeToWhaleAlert, hval] at ho
    | some a => rfl
  exact (alert_id_spec hashTrade 1000
    ((tradeToWhaleAlert hashTrade 1000).getD defaultAlert) ho).1 "0xtx9" rfl (by simp)

/-- C10: a pagination cycle can fetch a non-empty page in which every trade
is filtered out (here: below the threshold), return `foundCount = 0`, and
still advance `oldestOffset` by 500 — so a zero result implies neither that
the retention boundary was reached nor that the cursor is unchanged. -/
theorem loadMore_zero_can_advance :
    tradeToWhaleAlert smallTrade 1000 = none ∧
    pageBelowThreshold (initialWhaleStore.oldestOffset + 500) ≠ FetchResult.ok [] ∧
    (loadMore false initialWhaleStore 1000 pageBelowThreshold).foundCount = 0 ∧
    (loadMore false initialWhaleStore 1000 pageBelowThreshold).store.oldestOffset =
      initialWhaleStore.oldestOffset + 500 := by
  have hsmall : tradeToWhaleAlert smallTrade 1000 = none := by
    norm_num [tradeToWhaleAlert, smallTrade]
  refine ⟨hsmall, by simp [pageBelowThreshold], ?_, ?_⟩
  · simp [loadMore, pageBelowThreshold, mergeTrades, mergeStep, hsmall]
  · simp [loadMore, pageBelowThreshold, mergeTrades, mergeStep, hsmall]

end PolymarketInsider
